import Mathlib

/-!
Verification of the connection/session orchestration core of the nghttp2
reverse proxy ("shrpx") and its load generator ("h2load"), as a shallow
embedding in Lean.  Each definition is translated from the C++ source:
  - shrpx_http2_downstream_connection.cc (Http2DownstreamConnection)
  - h2load_quic.cc (QUIC client engine of h2load)
  - the CertLookupTree, whose implementation is not among the sampled
    sources, is modelled from the specification.
Effectful calls into the surrounding session objects are represented as
explicit action traces; state mutation is explicit state passing.
-/

namespace Shrpx

/-- Downstream request/response states, from shrpx_downstream.h
(DownstreamState). -/
inductive DownstreamState
  | INITIAL
  | HEADER_COMPLETE
  | BODY
  | MSG_COMPLETE
  | MSG_RESET
  | MSG_BAD_HEADER
  | STREAM_CLOSED
deriving DecidableEq, Repr

/-- Connect protocol of a request (shrpx ConnectProto). -/
inductive ConnectProto
  | NONE
  | WEBSOCKET
deriving DecidableEq, Repr

/-- Request methods relevant to the embedded code paths (llhttp methods). -/
inductive HMethod
  | CONNECT
  | OPTIONS
  | GET
  | POST
deriving DecidableEq, Repr

/-- State of the shared Http2Session (shrpx_http2_session.h). -/
inductive Http2SessionState
  | DISCONNECTED
  | RESOLVING
  | CONNECTING
  | CONNECTED
  | CONNECT_FAILING
  | DISCONNECTING
deriving DecidableEq, Repr

/-- The request half of a Downstream, restricted to the fields read or
written by Http2DownstreamConnection. -/
structure HRequest where
  method : HMethod
  connect_proto : ConnectProto
  upgrade_request : Bool
  scheme : String
  authority : String
  path : String
  no_authority : Bool
  headers : List (String × String)
deriving DecidableEq, Repr

/-- The response half of a Downstream, restricted to the fields read or
written by Http2DownstreamConnection. -/
structure HResponse where
  unconsumed_body_length : Nat
deriving DecidableEq, Repr

/-- A Downstream: one in-flight request/response pair. -/
structure Downstream where
  req : HRequest
  resp : HResponse
  request_state : DownstreamState
  response_state : DownstreamState
  upgraded : Bool
  downstream_stream_id : Int
deriving DecidableEq, Repr

/-- nghttp2 error code NGHTTP2_NO_ERROR. -/
def NGHTTP2_NO_ERROR : Nat := 0

/-- nghttp2 error code NGHTTP2_INTERNAL_ERROR. -/
def NGHTTP2_INTERNAL_ERROR : Nat := 2

/-- Observable calls made by Http2DownstreamConnection into its
Http2Session (and timer surface of the Downstream). -/
inductive SessionAction
  | submitRstStream (stream_id : Int) (error_code : Nat)
  | consume (stream_id : Int) (n : Nat)
  | signalWrite
  | disableRTimer
  | disableWTimer
  | resetRTimer
deriving DecidableEq, Repr

/-- Http2DownstreamConnection::submit_rst_stream
(shrpx_http2_downstream_connection.cc, lines 142-165).  Returns the rv of
the source function together with the trace of session calls; the
underlying nghttp2 submission is assumed to succeed when attempted. -/
def submit_rst_stream (session_state : Http2SessionState) (d : Downstream)
    (error_code : Nat) : Int × List SessionAction :=
  if session_state = Http2SessionState.CONNECTED ∧
      d.downstream_stream_id ≠ -1 then
    match d.response_state with
    | DownstreamState.MSG_RESET => (-1, [])
    | DownstreamState.MSG_BAD_HEADER => (-1, [])
    | DownstreamState.MSG_COMPLETE => (-1, [])
    | _ => (0, [SessionAction.submitRstStream d.downstream_stream_id
                  error_code])
  else
    (-1, [])

/-- Http2DownstreamConnection::detach_downstream
(shrpx_http2_downstream_connection.cc, lines 116-140): submit RST_STREAM
with the default INTERNAL_ERROR code, return the unconsumed flow-control
credit via consume, zero the residual, and disable the timers. -/
def detach_downstream (session_state : Http2SessionState) (d : Downstream) :
    Downstream × List SessionAction :=
  if d.downstream_stream_id ≠ -1 then
    let r := submit_rst_stream session_state d NGHTTP2_INTERNAL_ERROR
    let acts := r.2 ++ (if r.1 = 0 then [SessionAction.signalWrite] else [])
    let acts := acts ++
      [SessionAction.consume d.downstream_stream_id
        d.resp.unconsumed_body_length]
    let d' := { d with resp := { d.resp with unconsumed_body_length := 0 } }
    (d', acts ++ [SessionAction.signalWrite, SessionAction.disableRTimer,
                  SessionAction.disableWTimer])
  else
    (d, [SessionAction.disableRTimer, SessionAction.disableWTimer])

/-- Http2DownstreamConnection::~Http2DownstreamConnection
(shrpx_http2_downstream_connection.cc, lines 56-94), for the case that a
Downstream is attached: pick the RST_STREAM error code from the request
state and the upgraded flag, and when the session is CONNECTED and the
stream was opened, submit RST_STREAM and consume the residual. -/
def http2dconn_destructor (session_state : Http2SessionState)
    (d : Downstream) : Downstream × List SessionAction :=
  let error_code :=
    if d.request_state = DownstreamState.STREAM_CLOSED ∧ d.upgraded then
      NGHTTP2_NO_ERROR
    else
      NGHTTP2_INTERNAL_ERROR
  let pre := [SessionAction.disableRTimer, SessionAction.disableWTimer]
  if session_state = Http2SessionState.CONNECTED ∧
      d.downstream_stream_id ≠ -1 then
    let r := submit_rst_stream session_state d error_code
    let acts := pre ++ r.2 ++
      [SessionAction.consume d.downstream_stream_id
        d.resp.unconsumed_body_length, SessionAction.signalWrite]
    let d' := { d with resp := { d.resp with unconsumed_body_length := 0 } }
    (d', acts)
  else
    (d, pre)

/-- Http2DownstreamConnection::attach_downstream
(shrpx_http2_downstream_connection.cc, lines 96-114): HTTP/2 disables
HTTP Upgrade, so upgrade_request is cleared unless the request is a
CONNECT or carries a connect protocol. -/
def attach_downstream (d : Downstream) : Downstream × List SessionAction :=
  let d' :=
    if d.req.method ≠ HMethod.CONNECT ∧
        d.req.connect_proto = ConnectProto.NONE then
      { d with req := { d.req with upgrade_request := false } }
    else
      d
  (d', [SessionAction.signalWrite, SessionAction.resetRTimer])

end Shrpx

namespace H2load

/-! ## QUIC client engine of h2load (h2load_quic.cc) -/

/-- A datagram (or GRO-coalesced blob of datagrams) pending transmission,
as captured in quic.tx.blocked: the remote address, the unsent bytes, and
the UDP-GSO segment size. -/
structure BlockedPkt where
  remote : Nat
  data : List Nat
  gso_size : Nat
deriving DecidableEq, Repr

/-- The tx half of the Client's QUIC state: the send_blocked flag and the
single blocked descriptor slot. -/
structure QuicTxState where
  send_blocked : Bool
  blocked : BlockedPkt
deriving DecidableEq, Repr

/-- Environment choices made by the kernel and the protocol library during
one Client::write_quic call: how many bytes the OS accepts when the
blocked packet is resent, the aggregate packet produced by
ngtcp2_conn_write_aggregate_pkt (none when nwrite = 0), and how many bytes
the OS accepts when that fresh packet is sent. -/
structure WriteEnv where
  resendAccept : Nat
  pkt : Option BlockedPkt
  sendAccept : Nat
deriving Repr

/-- Client::on_send_blocked (h2load_quic.cc, lines 789-804).  The source
asserts !quic.tx.send_blocked; an assertion failure is modelled as none.
On success the descriptor is stored in the single slot and the flag is
set. -/
def on_send_blocked (s : QuicTxState) (remote : Nat) (data : List Nat)
    (gso_size : Nat) : Option QuicTxState :=
  if s.send_blocked then
    none
  else
    some { send_blocked := true, blocked := ⟨remote, data, gso_size⟩ }

/-- Client::send_blocked_packet (h2load_quic.cc, lines 806-824).  The
source asserts quic.tx.send_blocked; an assertion failure is modelled as
none.  write_udp is the environment: it accepts some prefix of the data
and returns the rest.  A nonempty rest keeps the slot with the residual
data; an empty rest clears the flag.  The source returns 0 on both
paths. -/
def send_blocked_packet (s : QuicTxState) (accepted : Nat) :
    Option (QuicTxState × Int) :=
  if s.send_blocked then
    if (s.blocked.data.drop accepted).isEmpty then
      some ({ s with send_blocked := false }, 0)
    else
      some ({ s with blocked :=
        { s.blocked with data := s.blocked.data.drop accepted } }, 0)
  else
    none

/-- Client::write_udp_or_blocked (h2load_quic.cc, lines 780-787): send the
datagram; if a nonempty rest remains, record the whole datagram in the
blocked slot via on_send_blocked. -/
def write_udp_or_blocked (s : QuicTxState) (remote : Nat) (data : List Nat)
    (gso_size : Nat) (accepted : Nat) : Option QuicTxState :=
  if (data.drop accepted).isEmpty then
    some s
  else
    on_send_blocked s remote data gso_size

/-- Client::write_quic (h2load_quic.cc, lines 735-778): retry the blocked
packet first and return while still blocked; otherwise ask the protocol
machine for an aggregate packet and send it, possibly blocking. -/
def write_quic (close_requested : Bool) (s : QuicTxState) (e : WriteEnv) :
    Option (QuicTxState × Int) :=
  if close_requested then
    some (s, -1)
  else
    match (if s.send_blocked then send_blocked_packet s e.resendAccept
           else some (s, 0)) with
    | none => none
    | some (s1, rv) =>
      if rv ≠ 0 then
        some (s1, -1)
      else if s1.send_blocked then
        some (s1, 0)
      else
        match e.pkt with
        | none => some (s1, 0)
        | some p =>
          match write_udp_or_blocked s1 p.remote p.data p.gso_size
              e.sendAccept with
          | none => none
          | some s2 => some (s2, 0)

/-- Iterate write_quic over a sequence of environment choices, stopping
with none if any assertion inside fires. -/
def run_write_quic (s : QuicTxState) : List WriteEnv → Option QuicTxState
  | [] => some s
  | e :: es =>
    match write_quic false s e with
    | none => none
    | some (s', _) => run_write_quic s' es

/-- QUIC encryption levels (ngtcp2_encryption_level). -/
inductive EncLevel
  | initial
  | handshake
  | zeroRtt
  | oneRtt
deriving DecidableEq, Repr

/-- The part of the Client observed by the recv_rx_key callback: how many
times an Http3Session has been constructed and installed.  Construction is
assumed to succeed (Http3Session::init_conn not failing). -/
structure H3SessionState where
  sessions_constructed : Nat
deriving DecidableEq, Repr

/-- The recv_rx_key callback (h2load_quic.cc, lines 309-324) together with
Client::quic_make_http3_session (lines 326-334): a non-1RTT level returns
0 without any action; a 1RTT level constructs and installs the HTTP/3
session and returns 0. -/
def recv_rx_key (st : H3SessionState) (level : EncLevel) :
    H3SessionState × Int :=
  if level ≠ EncLevel.oneRtt then
    (st, 0)
  else
    ({ sessions_constructed := st.sessions_constructed + 1 }, 0)

/-- Deliver a sequence of receive-key install events to recv_rx_key. -/
def run_recv_rx_key (st : H3SessionState) : List EncLevel → H3SessionState
  | [] => st
  | l :: ls => run_recv_rx_key (recv_rx_key st l).1 ls

/-- Number of 1-RTT events in a sequence of receive-key install events. -/
def count1Rtt : List EncLevel → Nat
  | [] => 0
  | l :: ls => (if l = EncLevel.oneRtt then 1 else 0) + count1Rtt ls

/-- One nanosecond-resolution second (NGTCP2_SECONDS). -/
def NGTCP2_SECONDS : Nat := 1000000000

/-- The h2load configuration fields read by Client::quic_init when filling
the transport parameters. -/
structure H2loadConfig where
  window_bits : Nat
  connection_window_bits : Nat
deriving DecidableEq, Repr

/-- The QUIC transport parameters set by Client::quic_init. -/
structure TransportParams where
  initial_max_stream_data_bidi_local : Nat
  initial_max_stream_data_uni : Nat
  initial_max_data : Nat
  initial_max_streams_bidi : Nat
  initial_max_streams_uni : Nat
  max_idle_timeout : Nat
deriving DecidableEq, Repr

/-- The transport-parameter assignment in Client::quic_init
(h2load_quic.cc, lines 434-443), written with the shifts of the source;
the C int arithmetic is exact for window exponents up to 30. -/
def quic_init_transport_params (config : H2loadConfig) : TransportParams :=
  let max_stream_data :=
    min ((1 <<< 26) - 1) ((1 <<< config.window_bits) - 1)
  { initial_max_stream_data_bidi_local := max_stream_data
    initial_max_stream_data_uni := max_stream_data
    initial_max_data := (1 <<< config.connection_window_bits) - 1
    initial_max_streams_bidi := 0
    initial_max_streams_uni := 100
    max_idle_timeout := 30 * NGTCP2_SECONDS }

/-- A blob returned by one recvmsg in Client::read_quic: the number of
bytes read and the UDP-GRO segment size reported by the kernel (0 when no
GRO control message is present). -/
structure RecvBlob where
  nread : Nat
  gro : Nat
deriving DecidableEq, Repr

/-- Number of datagrams fed to ngtcp2_conn_read_pkt for one blob, i.e.
the number of iterations of the inner loop of Client::read_quic
(h2load_quic.cc, lines 625-651): chunks of min(nread, gso_size) where
gso_size falls back to nread when no GRO is present.  A zero-length
datagram is fed once. -/
def blob_pktcnt (b : RecvBlob) : Nat :=
  if b.nread = 0 then 1
  else (b.nread + (if b.gro = 0 then b.nread else b.gro) - 1) /
    (if b.gro = 0 then b.nread else b.gro)

/-- Client::read_quic (h2load_quic.cc, lines 566-659), success path:
process blobs in order, accumulating the datagram count, and stop issuing
new reads once the count has reached 100 after a blob is fully
processed.  Returns the total number of datagrams fed. -/
def read_quic_pktcnt (pktcnt : Nat) : List RecvBlob → Nat
  | [] => pktcnt
  | b :: bs =>
    let pktcnt := pktcnt + blob_pktcnt b
    if 100 ≤ pktcnt then pktcnt else read_quic_pktcnt pktcnt bs

/-- Calls made by the Client into its Http3Session. -/
inductive H3Action
  | shutdownStreamRead (stream_id : Int)
  | shutdownStreamWrite (stream_id : Int)
deriving DecidableEq, Repr

/-- Client::quic_stream_reset (h2load_quic.cc, lines 160-166): shut down
the read side of the stream on the HTTP/3 session; -1 if that fails, 0
otherwise.  shutdown_read_result is the result returned by
Http3Session::shutdown_stream_read. -/
def quic_stream_reset (shutdown_read_result : Int) (stream_id : Int)
    (app_error_code : Nat) : Int × List H3Action :=
  if shutdown_read_result ≠ 0 then
    (-1, [H3Action.shutdownStreamRead stream_id])
  else
    (0, [H3Action.shutdownStreamRead stream_id])

/-- Client::quic_stream_stop_sending (h2load_quic.cc, lines 180-187):
shut down the read side of the stream on the HTTP/3 session; -1 if that
fails, 0 otherwise. -/
def quic_stream_stop_sending (shutdown_read_result : Int) (stream_id : Int)
    (app_error_code : Nat) : Int × List H3Action :=
  if shutdown_read_result ≠ 0 then
    (-1, [H3Action.shutdownStreamRead stream_id])
  else
    (0, [H3Action.shutdownStreamRead stream_id])

end H2load

namespace CertTree

/-! ## TLS certificate lookup tree

Modelled from the spec: the implementation of tls::CertLookupTree
(shrpx_tls.cc) is not among the sampled sources; only its test
(shrpx_tls_test.cc) is.  The model follows the specification, section
4.5: insertion takes a pattern and an index; lookup returns the
highest-priority matching index or -1; the priority order is
exact > left-label wildcard > middle wildcard > parent-suffix wildcard;
a wildcard matches at least one character, never a dot, and is permitted
only in the leftmost label; comparison is case-insensitive; a duplicate
insert keeps the first-assigned index. -/

/-- Case-insensitive comparison: hostnames and patterns are compared after
mapping to lower case. -/
def lcStr (s : List Char) : List Char := s.map Char.toLower

/-- Split a hostname at the first dot; the dot stays with the rest. -/
def splitLabel : List Char → List Char × List Char
  | [] => ([], [])
  | c :: cs =>
    if c = '.' then ([], c :: cs)
    else
      let r := splitLabel cs
      (c :: r.1, r.2)

/-- Split a string at the first wildcard character, if any. -/
def splitStar : List Char → Option (List Char × List Char)
  | [] => none
  | c :: cs =>
    if c = '*' then some ([], cs)
    else (splitStar cs).map (fun p => (c :: p.1, p.2))

/-- Modelled from the spec: a label a*b matches a hostname label when the
label is a, then at least one character, then b.  The matched span lies
within one label, so it never contains a dot. -/
def wcLabelMatch (a b hlab : List Char) : Bool :=
  decide (a.length + b.length < hlab.length) && a.isPrefixOf hlab &&
    b.isSuffixOf hlab

/-- Modelled from the spec: whether a (lower-cased) pattern matches a
(lower-cased) hostname.  A pattern without a wildcard matches exactly; a
pattern with a wildcard is admitted only when the single wildcard is in
the leftmost label, and matches when the rest after the leftmost label is
identical and the leftmost hostname label matches a*b. -/
def patMatch (p h : List Char) : Bool :=
  match splitStar p with
  | none => p == h
  | some _ =>
    let pl := splitLabel p
    match splitStar pl.1 with
    | none => false
    | some ab =>
      if (splitStar ab.2).isSome || (splitStar pl.2).isSome then false
      else
        let hl := splitLabel h
        wcLabelMatch ab.1 ab.2 hl.1 && hl.2 == pl.2

/-- Modelled from the spec: the priority class of a pattern.  0 for exact
patterns, 1 for a left-label wildcard (*w.example.org), 2 for a middle
wildcard (xy*.host.domain), 3 for a parent-suffix wildcard (*.foo.bar);
smaller is higher priority. -/
def patClass (p : List Char) : Nat :=
  match splitStar p with
  | none => 0
  | some _ =>
    let pl := splitLabel p
    match splitStar pl.1 with
    | none => 4
    | some ab =>
      match ab.1, ab.2 with
      | [], [] => 3
      | [], _ :: _ => 1
      | _ :: _, _ => 2

/-- Modelled from the spec: the tree is the list of inserted (lower-cased
pattern, index) pairs in insertion order. -/
abbrev CertLookupTree := List (List Char × Nat)

/-- Modelled from the spec: insert a pattern; a duplicate insert keeps the
first-assigned index. -/
def add_cert (t : CertLookupTree) (hostname : List Char) (idx : Nat) :
    CertLookupTree :=
  let hl := lcStr hostname
  if t.any (fun e => e.1 == hl) then t else t ++ [(hl, idx)]

/-- Insert a list of patterns with consecutive indices taken from their
positions, as the test driver does. -/
def build_tree (patterns : List (List Char × Nat)) : CertLookupTree :=
  patterns.foldl (fun t e => add_cert t e.1 e.2) []

/-- Modelled from the spec: lookup returns the index of the matching
pattern with the highest priority (smallest class), the earliest-inserted
one on a tie, or -1 when no pattern matches. -/
def lookup (t : CertLookupTree) (h : List Char) : Int :=
  let hl := lcStr h
  let best := (t.filter (fun e => patMatch e.1 hl)).foldl
    (fun best e =>
      match best with
      | none => some (patClass e.1, e.2)
      | some b =>
        if patClass e.1 < b.1 then some (patClass e.1, e.2) else some b)
    none
  match best with
  | none => -1
  | some b => Int.ofNat b.2

/-- The patterns inserted by the scenario of claim C4. -/
def c4_tree : CertLookupTree :=
  build_tree [("example.com".toList, 0), ("www.example.org".toList, 1),
    ("*www.example.org".toList, 2), ("xy*.host.domain".toList, 3),
    ("*yy.host.domain".toList, 4), ("*.foo.bar".toList, 8),
    ("oo.bar".toList, 9)]

end CertTree

namespace Shrpx

/-! ## Http2DownstreamConnection::push_request_headers -/

/-- The backend address fields read by push_request_headers
(DownstreamAddr). -/
structure BackendAddr where
  tls : Bool
  upgrade_scheme : Bool
  hostport : String
deriving DecidableEq, Repr

/-- The http configuration fields read by push_request_headers
(shrpx_config.h): host-rewrite and proxy switches and the per-header
strip/add policies. -/
structure HttpConf where
  no_host_rewrite : Bool
  http2_proxy : Bool
  fwd_strip_incoming : Bool
  fwd_params : Bool
  xff_strip_incoming : Bool
  xff_add : Bool
  xfp_strip_incoming : Bool
  xfp_add : Bool
  early_data_strip_incoming : Bool
  no_via : Bool
  add_request_headers : List (String × String)
deriving DecidableEq, Repr

/-- Values produced by collaborators outside the sampled sources during
push_request_headers: the client IP address
(ClientHandler::get_ipaddr), the outputs of http::create_forwarded and
http::create_via_header_value, whether the client TLS handshake is
unfinished (early data), and whether the te header contains the
"trailers" keyword (http2::contains_trailers). -/
structure PushEnv where
  client_ip : String
  forwarded_value : String
  via_value : String
  early_data : Bool
  te_trailers : Bool
deriving DecidableEq, Repr

/-- Downstream::request::regular_connect_method: a CONNECT request that is
not an extended (websocket) CONNECT. -/
def regular_connect_method (req : HRequest) : Bool :=
  req.method = HMethod.CONNECT && req.connect_proto = ConnectProto.NONE

/-- First header with the given (lower-cased) field name, as
FieldStore::header. -/
def findHeader (hs : List (String × String)) (name : String) :
    Option String :=
  match hs.find? (fun h => h.1 = name) with
  | none => none
  | some h => some h.2

/-- Header field names that http2::copy_headers_to_nva_nocopy never
forwards.  Modelled from the spec: this helper lives in http2.cc, outside
the sampled sources; the spec says hop-by-hop and connection-specific
headers are stripped, and the via, forwarded, x-forwarded-for and
x-forwarded-proto headers are (re-)added by the dedicated blocks below. -/
def alwaysStripped (name : String) : Bool :=
  name = "connection" || name = "keep-alive" || name = "proxy-connection" ||
    name = "transfer-encoding" || name = "upgrade" || name = "te" ||
    name = "host" || name = "cookie" || name = "via" ||
    name = "forwarded" || name = "x-forwarded-for" ||
    name = "x-forwarded-proto" || name = "sec-websocket-key"

/-- Modelled from the spec: the header copy step of push_request_headers.
The early-data header survives the copy unless its strip_incoming policy
is set; the headers re-added by the dedicated blocks and the
connection-specific ones never survive. -/
def copy_headers (strip_early_data : Bool) (hs : List (String × String)) :
    List (String × String) :=
  hs.filter (fun h =>
    !(alwaysStripped h.1 || (strip_early_data && h.1 = "early-data")))

/-- String form of the request method, as http2::to_method_string. -/
def methodString : HMethod → String
  | HMethod.CONNECT => "CONNECT"
  | HMethod.OPTIONS => "OPTIONS"
  | HMethod.GET => "GET"
  | HMethod.POST => "POST"

/-- Http2DownstreamConnection::push_request_headers
(shrpx_http2_downstream_connection.cc, lines 232-507), restricted to the
header block it assembles, in emission order: the pseudo-header block,
the copied end-to-end headers, early-data, forwarded, x-forwarded-for,
x-forwarded-proto, via, te and the configured additional headers. -/
def push_request_headers (cfg : HttpConf) (addr : BackendAddr)
    (req : HRequest) (env : PushEnv) : List (String × String) :=
  let no_host_rewrite :=
    cfg.no_host_rewrite || cfg.http2_proxy || regular_connect_method req
  let authority :=
    if no_host_rewrite && req.authority ≠ "" then req.authority
    else addr.hostport
  let methodHdrs :=
    if req.connect_proto = ConnectProto.WEBSOCKET then
      [(":method", "CONNECT"), (":protocol", "websocket")]
    else
      [(":method", methodString req.method)]
  let pseudo :=
    if !regular_connect_method req then
      (if addr.tls && addr.upgrade_scheme && req.scheme = "http" then
        [(":scheme", "https")]
      else
        [(":scheme", req.scheme)]) ++
      (if req.method = HMethod.OPTIONS && req.path = "" then
        [(":path", "*")]
      else
        [(":path", req.path)]) ++
      (if !req.no_authority || req.connect_proto ≠ ConnectProto.NONE then
        [(":authority", authority)]
      else
        [("host", authority)])
    else
      [(":authority", authority)]
  let copied := copy_headers cfg.early_data_strip_incoming req.headers
  let earlyDataHdr := if env.early_data then [("early-data", "1")] else []
  let fwd :=
    if cfg.fwd_strip_incoming then none
    else findHeader req.headers "forwarded"
  let fwdHdrs :=
    if cfg.fwd_params then
      let value := env.forwarded_value
      if fwd.isSome || value ≠ "" then
        let value :=
          match fwd with
          | none => value
          | some f => if value = "" then f else f ++ ", " ++ value
        [("forwarded", value)]
      else []
    else
      match fwd with
      | none => []
      | some f => [("forwarded", f)]
  let xff :=
    if cfg.xff_strip_incoming then none
    else findHeader req.headers "x-forwarded-for"
  let xffHdrs :=
    if cfg.xff_add then
      let xff_value :=
        match xff with
        | none => env.client_ip
        | some v => v ++ ", " ++ env.client_ip
      [("x-forwarded-for", xff_value)]
    else
      match xff with
      | none => []
      | some v => [("x-forwarded-for", v)]
  let xfpHdrs :=
    if !cfg.http2_proxy && !regular_connect_method req then
      let xfp :=
        if cfg.xfp_strip_incoming then none
        else findHeader req.headers "x-forwarded-proto"
      if cfg.xfp_add then
        let xfp_value :=
          match xfp with
          | none => req.scheme
          | some v => v ++ ", " ++ req.scheme
        [("x-forwarded-proto", xfp_value)]
      else
        match xfp with
        | none => []
        | some v => [("x-forwarded-proto", v)]
    else []
  let via := findHeader req.headers "via"
  let viaHdrs :=
    if cfg.no_via then
      match via with
      | none => []
      | some v => [("via", v)]
    else
      match via with
      | none => [("via", env.via_value)]
      | some v => [("via", v ++ ", " ++ env.via_value)]
  let teHdrs :=
    match findHeader req.headers "te" with
    | none => []
    | some _ => if env.te_trailers then [("te", "trailers")] else []
  methodHdrs ++ pseudo ++ copied ++ earlyDataHdr ++ fwdHdrs ++ xffHdrs ++
    xfpHdrs ++ viaHdrs ++ teHdrs ++ cfg.add_request_headers

/-- Does a session action consume flow-control credit? -/
def isConsume : SessionAction → Bool
  | SessionAction.consume _ _ => true
  | _ => false

/-- A TLS backend address with upgrade_scheme set whose hostport differs
from the client authority. -/
def c5_addr : BackendAddr :=
  { tls := true, upgrade_scheme := true,
    hostport := "backend.example.com:8080" }

/-- A request with scheme http, a non-empty authority and an incoming
x-forwarded-for header. -/
def c5_req : HRequest :=
  { method := HMethod.GET, connect_proto := ConnectProto.NONE,
    upgrade_request := false, scheme := "http",
    authority := "www.a.com", path := "/", no_authority := false,
    headers := [("x-forwarded-for", "1.2.3.4")] }

/-- Collaborator outputs for the scenario. -/
def c5_env : PushEnv :=
  { client_ip := "5.6.7.8", forwarded_value := "", via_value := "2 nghttpx",
    early_data := false, te_trailers := false }

/-- A configuration with the x-forwarded-for add policy enabled but with
the incoming header stripped and host rewriting in effect. -/
def c5_cfg_strip : HttpConf :=
  { no_host_rewrite := false, http2_proxy := false,
    fwd_strip_incoming := false, fwd_params := false,
    xff_strip_incoming := true, xff_add := true,
    xfp_strip_incoming := false, xfp_add := false,
    early_data_strip_incoming := false, no_via := true,
    add_request_headers := [] }

/-- A configuration with the x-forwarded-for add policy enabled, the
incoming header kept, and host rewriting disabled. -/
def c5_cfg_keep : HttpConf :=
  { no_host_rewrite := true, http2_proxy := false,
    fwd_strip_incoming := false, fwd_params := false,
    xff_strip_incoming := false, xff_add := true,
    xfp_strip_incoming := false, xfp_add := false,
    early_data_strip_incoming := false, no_via := true,
    add_request_headers := [] }

end Shrpx

/-!
## Theorems
-/

/-- C4: after inserting ("example.com",0), ("www.example.org",1),
("*www.example.org",2), ("xy*.host.domain",3), ("*yy.host.domain",4),
("*.foo.bar",8), ("oo.bar",9) into a fresh CertLookupTree, lookup returns
0 for "example.com", 2 for "2www.example.org", -1 for "www2.example.org",
3 for "xy1.host.domain", -1 for "yy.host.domain" (a wildcard must match
at least one character), 4 for "xyy.host.domain", 8 for "x.foo.bar" and
-1 for the empty hostname. -/
theorem cert_lookup_tree_scenario :
    CertTree.lookup CertTree.c4_tree "example.com".toList = 0 ∧
    CertTree.lookup CertTree.c4_tree "2www.example.org".toList = 2 ∧
    CertTree.lookup CertTree.c4_tree "www2.example.org".toList = -1 ∧
    CertTree.lookup CertTree.c4_tree "xy1.host.domain".toList = 3 ∧
    CertTree.lookup CertTree.c4_tree "yy.host.domain".toList = -1 ∧
    CertTree.lookup CertTree.c4_tree "xyy.host.domain".toList = 4 ∧
    CertTree.lookup CertTree.c4_tree "x.foo.bar".toList = 8 ∧
    CertTree.lookup CertTree.c4_tree "".toList = -1 := by
  decide

/-- C7: quic_init sets initial_max_stream_data_bidi_local and
initial_max_stream_data_uni to min(2^26 - 1, 2^window_bits - 1),
initial_max_data to 2^connection_window_bits - 1,
initial_max_streams_bidi to 0, initial_max_streams_uni to 100 and
max_idle_timeout to 30 seconds (in nanoseconds); the window exponents are
bounded by 30 so that the C int arithmetic of the source is exact. -/
theorem quic_init_transport_params_spec (cfg : H2load.H2loadConfig)
    (hw : cfg.window_bits ≤ 30) (hc : cfg.connection_window_bits ≤ 30) :
    (H2load.quic_init_transport_params cfg).initial_max_stream_data_bidi_local
        = min (2 ^ 26 - 1) (2 ^ cfg.window_bits - 1) ∧
    (H2load.quic_init_transport_params cfg).initial_max_stream_data_uni
        = min (2 ^ 26 - 1) (2 ^ cfg.window_bits - 1) ∧
    (H2load.quic_init_transport_params cfg).initial_max_data
        = 2 ^ cfg.connection_window_bits - 1 ∧
    (H2load.quic_init_transport_params cfg).initial_max_streams_bidi = 0 ∧
    (H2load.quic_init_transport_params cfg).initial_max_streams_uni = 100 ∧
    (H2load.quic_init_transport_params cfg).max_idle_timeout
        = 30 * 1000000000 := by
  refine ⟨?_, ?_, ?_, rfl, rfl, rfl⟩ <;>
    simp [H2load.quic_init_transport_params, Nat.shiftLeft_eq]

/-- C7 witness: the default h2load window exponents 30/30. -/
theorem quic_init_transport_params_spec_witness :
    (H2load.quic_init_transport_params ⟨30, 30⟩).initial_max_data
      = 2 ^ 30 - 1 :=
  (quic_init_transport_params_spec ⟨30, 30⟩ (by decide) (by decide)).2.2.1

/-- C9: for every stream id and application error code,
Client::quic_stream_reset and Client::quic_stream_stop_sending are
extensionally equal: each performs exactly shutdown_stream_read on the
HTTP/3 session for that stream, returns 0 on success and -1 on failure,
and touches no write side. -/
theorem quic_stream_reset_eq_stop_sending (res sid : Int)
    (code : Nat) :
    H2load.quic_stream_reset res sid code =
      H2load.quic_stream_stop_sending res sid code ∧
    (H2load.quic_stream_reset res sid code).2 =
      [H2load.H3Action.shutdownStreamRead sid] ∧
    (H2load.quic_stream_reset res sid code).1 =
      (if res ≠ 0 then -1 else 0) := by
  refine ⟨rfl, ?_, ?_⟩ <;>
    simp only [H2load.quic_stream_reset] <;> split <;> rfl

/-- C10: after attach_downstream, a Downstream whose request method is
not CONNECT and whose connect_proto is NONE has upgrade_request = false,
so no HTTP/1-style Upgrade is carried onto the HTTP/2 downstream wire. -/
theorem attach_downstream_clears_upgrade (d : Shrpx.Downstream)
    (h1 : d.req.method ≠ Shrpx.HMethod.CONNECT)
    (h2 : d.req.connect_proto = Shrpx.ConnectProto.NONE) :
    (Shrpx.attach_downstream d).1.req.upgrade_request = false := by
  simp [Shrpx.attach_downstream, h1, h2]

/-- C10 witness: a plain GET request. -/
theorem attach_downstream_clears_upgrade_witness :
    (Shrpx.attach_downstream
      { req := { method := Shrpx.HMethod.GET,
                 connect_proto := Shrpx.ConnectProto.NONE,
                 upgrade_request := true, scheme := "http",
                 authority := "a", path := "/", no_authority := false,
                 headers := [] },
        resp := { unconsumed_body_length := 0 },
        request_state := Shrpx.DownstreamState.INITIAL,
        response_state := Shrpx.DownstreamState.INITIAL,
        upgraded := false,
        downstream_stream_id := 1 }).1.req.upgrade_request = false :=
  attach_downstream_clears_upgrade _ (by decide) (by decide)

/-- C1: for every Downstream whose downstream stream id is not -1,
detach_downstream emits exactly one consume call, for that stream and
with exactly the response's current unconsumed_body_length, and
afterwards the response's unconsumed_body_length is 0. -/
theorem detach_downstream_consume_once (ss : Shrpx.Http2SessionState)
    (d : Shrpx.Downstream) (h : d.downstream_stream_id ≠ -1) :
    ((Shrpx.detach_downstream ss d).2.filter Shrpx.isConsume) =
      [Shrpx.SessionAction.consume d.downstream_stream_id
        d.resp.unconsumed_body_length] ∧
    (Shrpx.detach_downstream ss d).1.resp.unconsumed_body_length = 0 := by
  unfold Shrpx.detach_downstream Shrpx.submit_rst_stream
  rw [if_pos h]
  refine ⟨?_, rfl⟩
  split
  · split <;> simp [Shrpx.isConsume]
  · simp [Shrpx.isConsume]

/-- C1 witness: the spec scenario S3, a Downstream with stream id 1 and
unconsumed_body_length 4096. -/
theorem detach_downstream_consume_once_witness :
    ((Shrpx.detach_downstream Shrpx.Http2SessionState.CONNECTED
      { req := { method := Shrpx.HMethod.GET,
                 connect_proto := Shrpx.ConnectProto.NONE,
                 upgrade_request := false, scheme := "http",
                 authority := "a", path := "/", no_authority := false,
                 headers := [] },
        resp := { unconsumed_body_length := 4096 },
        request_state := Shrpx.DownstreamState.MSG_COMPLETE,
        response_state := Shrpx.DownstreamState.BODY,
        upgraded := false,
        downstream_stream_id := 1 }).2.filter Shrpx.isConsume) =
      [Shrpx.SessionAction.consume 1 4096] :=
  (detach_downstream_consume_once Shrpx.Http2SessionState.CONNECTED _
    (by decide)).1

/-- C6: whenever the Http2DownstreamConnection destructor submits
RST_STREAM, the error code is NO_ERROR if and only if the request state
is STREAM_CLOSED and the connection was upgraded, and in every other case
the error code is INTERNAL_ERROR. -/
theorem destructor_rst_error_code (ss : Shrpx.Http2SessionState)
    (d : Shrpx.Downstream) (sid : Int) (code : Nat)
    (h : Shrpx.SessionAction.submitRstStream sid code ∈
      (Shrpx.http2dconn_destructor ss d).2) :
    (code = Shrpx.NGHTTP2_NO_ERROR ↔
      (d.request_state = Shrpx.DownstreamState.STREAM_CLOSED ∧
        d.upgraded = true)) ∧
    (¬(d.request_state = Shrpx.DownstreamState.STREAM_CLOSED ∧
        d.upgraded = true) → code = Shrpx.NGHTTP2_INTERNAL_ERROR) := by
  have hcode : code =
      (if d.request_state = Shrpx.DownstreamState.STREAM_CLOSED ∧
          d.upgraded = true then Shrpx.NGHTTP2_NO_ERROR
        else Shrpx.NGHTTP2_INTERNAL_ERROR) := by
    unfold Shrpx.http2dconn_destructor Shrpx.submit_rst_stream at h
    split at h <;> split at h <;> (try split at h) <;>
      (try simp_all [Shrpx.NGHTTP2_NO_ERROR,
        Shrpx.NGHTTP2_INTERNAL_ERROR]) <;>
      (split <;> simp_all)
  rw [hcode]
  constructor
  · split <;>
      simp_all [Shrpx.NGHTTP2_NO_ERROR, Shrpx.NGHTTP2_INTERNAL_ERROR]
  · intro hn
    rw [if_neg hn]

/-- C6 witness: an upgraded Downstream whose request stream is closed, on
a CONNECTED session with stream id 1, yields NO_ERROR. -/
theorem destructor_rst_error_code_witness :
    (0 = Shrpx.NGHTTP2_NO_ERROR ↔
      (Shrpx.DownstreamState.STREAM_CLOSED =
        Shrpx.DownstreamState.STREAM_CLOSED ∧ true = true)) :=
  (destructor_rst_error_code Shrpx.Http2SessionState.CONNECTED
    { req := { method := Shrpx.HMethod.GET,
               connect_proto := Shrpx.ConnectProto.NONE,
               upgrade_request := false, scheme := "http",
               authority := "a", path := "/", no_authority := false,
               headers := [] },
      resp := { unconsumed_body_length := 0 },
      request_state := Shrpx.DownstreamState.STREAM_CLOSED,
      response_state := Shrpx.DownstreamState.BODY,
      upgraded := true,
      downstream_stream_id := 1 } 1 0 (by decide)).1

/-- C3 counterexample: delivering two 1-RTT receive-key install events
constructs the HTTP/3 session twice, so it is not true that for every
sequence of events the session is constructed exactly once. -/
theorem recv_rx_key_double_1rtt_counterexample :
    H2load.EncLevel.oneRtt ∈
      [H2load.EncLevel.oneRtt, H2load.EncLevel.oneRtt] ∧
    (H2load.run_recv_rx_key ⟨0⟩
      [H2load.EncLevel.oneRtt,
        H2load.EncLevel.oneRtt]).sessions_constructed ≠ 1 := by
  decide

/-- C3 amended: a receive-key event at a level other than 1-RTT causes no
action and returns 0; the HTTP/3 session is constructed at every 1-RTT
event, so it is constructed exactly once — at the first 1-RTT event —
for every sequence containing exactly one 1-RTT event, such as a normal
handshake. -/
theorem recv_rx_key_construct_per_1rtt :
    (∀ (st : H2load.H3SessionState) (l : H2load.EncLevel),
      l ≠ H2load.EncLevel.oneRtt → H2load.recv_rx_key st l = (st, 0)) ∧
    (∀ (st : H2load.H3SessionState) (ls : List H2load.EncLevel),
      (H2load.run_recv_rx_key st ls).sessions_constructed =
        st.sessions_constructed + H2load.count1Rtt ls) ∧
    (∀ pre post : List H2load.EncLevel,
      (∀ l ∈ pre, l ≠ H2load.EncLevel.oneRtt) →
      (∀ l ∈ post, l ≠ H2load.EncLevel.oneRtt) →
      (H2load.run_recv_rx_key ⟨0⟩
        (pre ++ H2load.EncLevel.oneRtt :: post)).sessions_constructed
        = 1) := by
  have hzero : ∀ ls : List H2load.EncLevel,
      (∀ l ∈ ls, l ≠ H2load.EncLevel.oneRtt) → H2load.count1Rtt ls = 0 := by
    intro ls h
    induction ls with
    | nil => rfl
    | cons l ls ih =>
      have hl := h l (List.mem_cons_self l ls)
      simp only [H2load.count1Rtt, if_neg hl, Nat.zero_add]
      exact ih (fun x hx => h x (List.mem_cons_of_mem l hx))
  have hrun : ∀ (ls : List H2load.EncLevel) (st : H2load.H3SessionState),
      (H2load.run_recv_rx_key st ls).sessions_constructed =
        st.sessions_constructed + H2load.count1Rtt ls := by
    intro ls
    induction ls with
    | nil => intro st; simp [H2load.run_recv_rx_key, H2load.count1Rtt]
    | cons l ls ih =>
      intro st
      by_cases hl : l = H2load.EncLevel.oneRtt
      · subst hl
        simp [H2load.run_recv_rx_key, H2load.recv_rx_key,
          H2load.count1Rtt, ih]
        try omega
      · simp [H2load.run_recv_rx_key, H2load.recv_rx_key, hl,
          H2load.count1Rtt, ih]
  have hcount : ∀ (pre post : List H2load.EncLevel),
      H2load.count1Rtt (pre ++ H2load.EncLevel.oneRtt :: post) =
        H2load.count1Rtt pre + 1 + H2load.count1Rtt post := by
    intro pre post
    induction pre with
    | nil => simp [H2load.count1Rtt]; try omega
    | cons l ls ih =>
      simp [H2load.count1Rtt, ih]
      try omega
  refine ⟨?_, fun st ls => hrun ls st, ?_⟩
  · intro st l hl
    simp [H2load.recv_rx_key, hl]
  · intro pre post hpre hpost
    rw [hrun, hcount, hzero pre hpre, hzero post hpost]

/-- C3 amended witness: the handshake sequence INITIAL, HANDSHAKE, 1-RTT
constructs the session exactly once. -/
theorem recv_rx_key_construct_per_1rtt_witness :
    (H2load.run_recv_rx_key ⟨0⟩
      [H2load.EncLevel.initial, H2load.EncLevel.handshake,
        H2load.EncLevel.oneRtt]).sessions_constructed = 1 :=
  recv_rx_key_construct_per_1rtt.2.2
    [H2load.EncLevel.initial, H2load.EncLevel.handshake] []
    (by decide) (by decide)

/-- C8 counterexample: a single GRO-coalesced blob of 200 bytes with
segment size 1 is fed as 200 datagrams before read_quic returns, so the
per-invocation datagram count is not bounded by 100. -/
theorem read_quic_gro_counterexample :
    H2load.read_quic_pktcnt 0 [⟨200, 1⟩] = 200 ∧
    ¬(H2load.read_quic_pktcnt 0 [⟨200, 1⟩] ≤ 100) := by
  decide

/-- C8 amended: a new blob is read only while fewer than 100 datagrams
have been fed, and a blob read into the 64 KiB buffer contains at most
65536 datagrams, so at most 99 + 65536 datagrams are fed per invocation;
when no GRO coalescing occurs each blob counts one datagram and the
original bound of 100 holds. -/
theorem read_quic_pktcnt_bound (blobs : List H2load.RecvBlob)
    (h64 : ∀ b ∈ blobs, b.nread ≤ 65536) :
    H2load.read_quic_pktcnt 0 blobs ≤ 99 + 65536 ∧
    ((∀ b ∈ blobs, b.gro = 0) → H2load.read_quic_pktcnt 0 blobs ≤ 100) := by
  have hgen : ∀ (K : Nat) (bs : List H2load.RecvBlob) (cnt : Nat),
      cnt ≤ 99 → (∀ b ∈ bs, H2load.blob_pktcnt b ≤ K) →
      H2load.read_quic_pktcnt cnt bs ≤ 99 + K := by
    intro K bs
    induction bs with
    | nil =>
      intro cnt hc _
      simp only [H2load.read_quic_pktcnt]
      omega
    | cons b bs ih =>
      intro cnt hc hb
      have hb1 : H2load.blob_pktcnt b ≤ K :=
        hb b (List.mem_cons_self b bs)
      simp only [H2load.read_quic_pktcnt]
      split
      · omega
      · exact ih (cnt + H2load.blob_pktcnt b) (by omega)
          (fun x hx => hb x (List.mem_cons_of_mem b hx))
  have hsize : ∀ b : H2load.RecvBlob, b.nread ≤ 65536 →
      H2load.blob_pktcnt b ≤ 65536 := by
    intro b hn
    by_cases h0 : b.nread = 0
    · simp [H2load.blob_pktcnt, h0]
    · have hpos : 0 < b.nread := Nat.pos_of_ne_zero h0
      by_cases hg : b.gro = 0
      · -- no GRO: one full-size datagram
        simp only [H2load.blob_pktcnt, if_neg h0, hg, if_pos]
        have hd := Nat.div_lt_of_lt_mul
          (show b.nread + b.nread - 1 < b.nread * 2 by omega)
        omega
      · have hgpos : 0 < b.gro := Nat.pos_of_ne_zero hg
        simp only [H2load.blob_pktcnt, if_neg h0, if_neg hg]
        have hd := Nat.div_lt_of_lt_mul
          (show b.nread + b.gro - 1 < b.gro * 65537 by omega)
        omega
  have hone : ∀ b : H2load.RecvBlob, b.gro = 0 →
      H2load.blob_pktcnt b ≤ 1 := by
    intro b hg
    by_cases h0 : b.nread = 0
    · simp [H2load.blob_pktcnt, h0]
    · have hpos : 0 < b.nread := Nat.pos_of_ne_zero h0
      simp only [H2load.blob_pktcnt, if_neg h0, hg, if_pos]
      have hd := Nat.div_lt_of_lt_mul
        (show b.nread + b.nread - 1 < b.nread * 2 by omega)
      omega
  constructor
  · exact hgen 65536 blobs 0 (by omega)
      (fun b hb => hsize b (h64 b hb))
  · intro hgro
    have := hgen 1 blobs 0 (by omega)
      (fun b hb => hone b (hgro b hb))
    omega

/-- C2: across every interleaving of write_quic, write_udp_or_blocked,
on_send_blocked and send_blocked_packet as invoked by the event loop, the
client holds at most one blocked tx descriptor: the asserts guarding the
single slot can never fire (write_quic and the iterated runs never reach
the none of the model), send_blocked is set only from an unblocked state,
a blocked partial resend keeps the single slot with the residual data,
and a successful resend clears the flag. -/
theorem write_quic_at_most_one_blocked :
    (∀ (s : H2load.QuicTxState) (e : H2load.WriteEnv),
      (H2load.write_quic false s e).isSome) ∧
    (∀ (s : H2load.QuicTxState) (envs : List H2load.WriteEnv),
      (H2load.run_write_quic s envs).isSome) ∧
    (∀ (s : H2load.QuicTxState) (r : Nat) (dt : List Nat) (g : Nat),
      s.send_blocked = true → H2load.on_send_blocked s r dt g = none) ∧
    (∀ (s : H2load.QuicTxState) (r : Nat) (dt : List Nat) (g : Nat),
      s.send_blocked = false →
      H2load.on_send_blocked s r dt g =
        some { send_blocked := true, blocked := ⟨r, dt, g⟩ }) ∧
    (∀ (s : H2load.QuicTxState) (k : Nat),
      s.send_blocked = true → ¬(s.blocked.data.drop k).isEmpty →
      H2load.send_blocked_packet s k =
        some ({ send_blocked := true,
                blocked := ⟨s.blocked.remote, s.blocked.data.drop k,
                  s.blocked.gso_size⟩ }, 0)) ∧
    (∀ (s : H2load.QuicTxState) (k : Nat),
      s.send_blocked = true → (s.blocked.data.drop k).isEmpty →
      H2load.send_blocked_packet s k =
        some ({ s with send_blocked := false }, 0)) := by
  have hsbp : ∀ (s : H2load.QuicTxState) (k : Nat),
      s.send_blocked = true → (H2load.send_blocked_packet s k).isSome := by
    intro s k hs
    unfold H2load.send_blocked_packet
    rw [if_pos hs]
    split <;> simp
  have hwub : ∀ (s1 : H2load.QuicTxState) (r : Nat) (dt : List Nat)
      (g k : Nat), s1.send_blocked = false →
      (H2load.write_udp_or_blocked s1 r dt g k).isSome := by
    intro s1 r dt g k hs1
    unfold H2load.write_udp_or_blocked
    split
    · simp
    · unfold H2load.on_send_blocked
      rw [if_neg (by rw [hs1]; simp)]
      simp
  have hwq : ∀ (s : H2load.QuicTxState) (e : H2load.WriteEnv),
      (H2load.write_quic false s e).isSome := by
    intro s e
    unfold H2load.write_quic
    rw [if_neg (by simp)]
    by_cases hs : s.send_blocked = true
    · rw [if_pos hs]
      rcases hos : H2load.send_blocked_packet s e.resendAccept with _ | p
      · exact absurd (hsbp s e.resendAccept hs) (by simp [hos])
      · rcases p with ⟨s1, rv⟩
        dsimp only
        split
        · simp
        · by_cases hs1 : s1.send_blocked = true
          · rw [if_pos hs1]; simp
          · rw [if_neg hs1]
            have hs1' : s1.send_blocked = false := by
              cases hb : s1.send_blocked
              · rfl
              · exact absurd hb hs1
            rcases hp : e.pkt with _ | p
            · simp
            · dsimp only
              rcases hw : H2load.write_udp_or_blocked s1 p.remote p.data
                  p.gso_size e.sendAccept with _ | s2
              · have hsome := hwub s1 p.remote p.data p.gso_size
                  e.sendAccept hs1'
                rw [hw] at hsome
                simp at hsome
              · simp
    · rw [if_neg hs]
      dsimp only
      rw [if_neg (by simp)]
      have hs' : s.send_blocked = false := by
        cases hb : s.send_blocked
        · rfl
        · exact absurd hb hs
      rw [if_neg (by rw [hs']; simp)]
      rcases hp : e.pkt with _ | p
      · simp
      · dsimp only
        rcases hw : H2load.write_udp_or_blocked s p.remote p.data
            p.gso_size e.sendAccept with _ | s2
        · have hsome := hwub s p.remote p.data p.gso_size e.sendAccept hs'
          rw [hw] at hsome
          simp at hsome
        · simp
  refine ⟨hwq, ?_, ?_, ?_, ?_, ?_⟩
  · intro s envs
    induction envs generalizing s with
    | nil => simp [H2load.run_write_quic]
    | cons e es ih =>
      unfold H2load.run_write_quic
      rcases hw : H2load.write_quic false s e with _ | p
      · exact absurd (hwq s e) (by simp [hw])
      · exact ih p.1
  · intro s r dt g hs
    unfold H2load.on_send_blocked
    rw [if_pos hs]
  · intro s r dt g hs
    unfold H2load.on_send_blocked
    rw [if_neg (by rw [hs]; simp)]
  · intro s k hs hrest
    unfold H2load.send_blocked_packet
    rw [if_pos hs, if_neg hrest]
    simp [hs]
  · intro s k hs hrest
    unfold H2load.send_blocked_packet
    rw [if_pos hs, if_pos hrest]

/-- C2 witness: from a state blocked on the two-byte datagram [7, 8],
a partial resend of one byte keeps the slot with the residual [8], a full
resend clears the flag, setting the slot from an unblocked state stores
the descriptor, and a run of two write_quic steps completes without any
assert firing. -/
theorem write_quic_at_most_one_blocked_witness :
    H2load.send_blocked_packet ⟨true, ⟨4, [7, 8], 0⟩⟩ 1 =
      some (⟨true, ⟨4, [8], 0⟩⟩, 0) ∧
    H2load.send_blocked_packet ⟨true, ⟨4, [7, 8], 0⟩⟩ 2 =
      some (⟨false, ⟨4, [7, 8], 0⟩⟩, 0) ∧
    H2load.on_send_blocked ⟨false, ⟨4, [7, 8], 0⟩⟩ 9 [1] 0 =
      some ⟨true, ⟨9, [1], 0⟩⟩ ∧
    (H2load.run_write_quic ⟨true, ⟨4, [7, 8], 0⟩⟩
      [⟨0, some ⟨2, [3], 0⟩, 0⟩, ⟨2, none, 0⟩]).isSome :=
  ⟨write_quic_at_most_one_blocked.2.2.2.2.1 ⟨true, ⟨4, [7, 8], 0⟩⟩ 1
      rfl (by decide),
    write_quic_at_most_one_blocked.2.2.2.2.2 ⟨true, ⟨4, [7, 8], 0⟩⟩ 2
      rfl (by decide),
    write_quic_at_most_one_blocked.2.2.2.1 ⟨false, ⟨4, [7, 8], 0⟩⟩ 9 [1] 0
      rfl,
    write_quic_at_most_one_blocked.2.1 ⟨true, ⟨4, [7, 8], 0⟩⟩
      [⟨0, some ⟨2, [3], 0⟩, 0⟩, ⟨2, none, 0⟩]⟩

/-- C8 amended witness: four plain (non-GRO) datagrams are fed as four,
within both bounds. -/
theorem read_quic_pktcnt_bound_witness :
    H2load.read_quic_pktcnt 0 [⟨1200, 0⟩, ⟨1200, 0⟩, ⟨0, 0⟩, ⟨500, 0⟩]
      ≤ 100 :=
  (read_quic_pktcnt_bound [⟨1200, 0⟩, ⟨1200, 0⟩, ⟨0, 0⟩, ⟨500, 0⟩]
    (by decide)).2 (by decide)

/-- C5 counterexample: a request with scheme http, authority "www.a.com"
and x-forwarded-for "1.2.3.4", pushed toward a TLS upgrade_scheme backend
with the x-forwarded-for add policy enabled, but under a configuration
that strips the incoming x-forwarded-for and leaves host rewriting on:
:scheme https is emitted, yet :authority is the backend hostport rather
than the client authority, and x-forwarded-for is the bare client IP
rather than "1.2.3.4, 5.6.7.8".  The claim does not constrain these two
configuration switches, so as stated it fails. -/
theorem push_request_headers_counterexample :
    Shrpx.c5_cfg_strip.xff_add = true ∧
    Shrpx.c5_addr.tls = true ∧ Shrpx.c5_addr.upgrade_scheme = true ∧
    (":scheme", "https") ∈
      Shrpx.push_request_headers Shrpx.c5_cfg_strip Shrpx.c5_addr
        Shrpx.c5_req Shrpx.c5_env ∧
    (":authority", "backend.example.com:8080") ∈
      Shrpx.push_request_headers Shrpx.c5_cfg_strip Shrpx.c5_addr
        Shrpx.c5_req Shrpx.c5_env ∧
    ("x-forwarded-for", "5.6.7.8") ∈
      Shrpx.push_request_headers Shrpx.c5_cfg_strip Shrpx.c5_addr
        Shrpx.c5_req Shrpx.c5_env ∧
    (":authority", "www.a.com") ∉
      Shrpx.push_request_headers Shrpx.c5_cfg_strip Shrpx.c5_addr
        Shrpx.c5_req Shrpx.c5_env ∧
    ("x-forwarded-for", "1.2.3.4, 5.6.7.8") ∉
      Shrpx.push_request_headers Shrpx.c5_cfg_strip Shrpx.c5_addr
        Shrpx.c5_req Shrpx.c5_env := by
  decide

/-- C5 amended: for every non-CONNECT request carrying scheme http, a
non-empty authority and an incoming x-forwarded-for header X,
push_request_headers toward a tls/upgrade_scheme backend emits :scheme
https, the client authority as :authority, and x-forwarded-for equal to
X ++ ", " ++ client ip — provided the add policy is enabled, the incoming
x-forwarded-for is not stripped, and host rewriting is disabled. -/
theorem push_request_headers_xff_upgrade (cfg : Shrpx.HttpConf)
    (addr : Shrpx.BackendAddr) (req : Shrpx.HRequest) (env : Shrpx.PushEnv)
    (X : String)
    (hscheme : req.scheme = "http")
    (hauth : req.authority ≠ "")
    (hxff : Shrpx.findHeader req.headers "x-forwarded-for" = some X)
    (htls : addr.tls = true) (hup : addr.upgrade_scheme = true)
    (hadd : cfg.xff_add = true)
    (hstrip : cfg.xff_strip_incoming = false)
    (hnhr : cfg.no_host_rewrite = true)
    (hconn : Shrpx.regular_connect_method req = false)
    (hna : req.no_authority = false) :
    (":scheme", "https") ∈ Shrpx.push_request_headers cfg addr req env ∧
    (":authority", req.authority) ∈
      Shrpx.push_request_headers cfg addr req env ∧
    ("x-forwarded-for", X ++ ", " ++ env.client_ip) ∈
      Shrpx.push_request_headers cfg addr req env := by
  unfold Shrpx.push_request_headers
  simp [hscheme, hauth, hxff, htls, hup, hadd, hstrip, hnhr, hconn, hna]

/-- C5 amended witness: the scenario request under the keep/no-rewrite
configuration yields the three expected headers. -/
theorem push_request_headers_xff_upgrade_witness :
    (":scheme", "https") ∈
      Shrpx.push_request_headers Shrpx.c5_cfg_keep Shrpx.c5_addr
        Shrpx.c5_req Shrpx.c5_env ∧
    (":authority", Shrpx.c5_req.authority) ∈
      Shrpx.push_request_headers Shrpx.c5_cfg_keep Shrpx.c5_addr
        Shrpx.c5_req Shrpx.c5_env ∧
    ("x-forwarded-for", "1.2.3.4" ++ ", " ++ Shrpx.c5_env.client_ip) ∈
      Shrpx.push_request_headers Shrpx.c5_cfg_keep Shrpx.c5_addr
        Shrpx.c5_req Shrpx.c5_env :=
  push_request_headers_xff_upgrade Shrpx.c5_cfg_keep Shrpx.c5_addr
    Shrpx.c5_req Shrpx.c5_env "1.2.3.4" rfl (by decide) (by decide) rfl rfl
    rfl rfl rfl (by decide) rfl
